import Mathlib

/-!
Verification of the reservas-cabanas backend (src/server.js).

The embedding models the server's pure logic with Lean definitions:

* Timestamps are milliseconds since the Unix epoch, as `Nat` (the server is
  assumed to run with a UTC local clock, the standard container setup, so
  JavaScript's `setDate(getDate() + 1)` advances by exactly 86 400 000 ms and
  `toISOString()` renders the UTC calendar date of the timestamp).
* The `/disponibilidad` date walk (src/server.js lines 91-105) becomes
  `walkDates`, `fechasOcupadas` and `fechasUnicas`.
* The `/agendar` handler (lines 127-222) becomes `agendarStep1` (validation
  and event-payload construction, returning before any insert on failure) and
  `agendarFinish` (response shaping for the insert outcome), with the
  reservation-code generator modelled exactly: the random draw is a dyadic
  rational k / 2^53 (the value produced by `Math.random()`), rendered in
  base 36 the way `Number.prototype.toString(36)` renders it (exact
  terminating expansion), then `substr(2, 6)` and `toUpperCase()`.
* The per-endpoint OAuth scope lists (lines 64-67, 146-149, 227-230) become
  `scopesFor`.
-/

/-- One day in milliseconds; with a UTC clock both the day step of the walk
and the date component of `toISOString()` work modulo this constant. -/
def DAY_MS : Nat := 86400000

/-- Gregorian leap-year test. -/
def isLeap (y : Nat) : Bool :=
  (y % 4 == 0 && y % 100 != 0) || y % 400 == 0

def daysInYear (y : Nat) : Nat :=
  if isLeap y then 366 else 365

def daysInMonth (y m : Nat) : Nat :=
  if m == 2 then (if isLeap y then 29 else 28)
  else if m == 4 || m == 6 || m == 9 || m == 11 then 30
  else 31

/-- Decimal digit character. -/
def digitChar (n : Nat) : Char := Char.ofNat (48 + n)

/-- Decimal rendering of a natural number (JavaScript's default
number-to-string conversion), via a structurally recursive fuel loop;
`natDecimal` supplies fuel `n + 1`, always sufficient. -/
def natDecimalAux : Nat → Nat → List Char
  | 0, _ => []
  | fuel + 1, n =>
    if n < 10 then [digitChar n]
    else natDecimalAux fuel (n / 10) ++ [digitChar (n % 10)]

def natDecimal (n : Nat) : List Char := natDecimalAux (n + 1) n

/-- Zero-padded two-digit field of an ISO date. -/
def pad2 (n : Nat) : List Char :=
  if n < 10 then digitChar 0 :: natDecimal n else natDecimal n

/-- Year and day-of-year of a day count since 1970-01-01, by scanning years
upward (fuel-driven so that it reduces in the kernel; fuel `day + 1` always
suffices because every step consumes at least 365 days). -/
def yearFromDaysAux : Nat → Nat → Nat → Nat × Nat
  | 0, y, d => (y, d)
  | fuel + 1, y, d =>
    if d < daysInYear y then (y, d)
    else yearFromDaysAux fuel (y + 1) (d - daysInYear y)

/-- Month and day-of-month (0-based) of a day-of-year. -/
def monthFromDaysAux : Nat → Nat → Nat → Nat → Nat × Nat
  | 0, _, m, d => (m, d)
  | fuel + 1, y, m, d =>
    if d < daysInMonth y m then (m, d)
    else monthFromDaysAux fuel y (m + 1) (d - daysInMonth y m)

/-- The `YYYY-MM-DD` string for a day count since the epoch: the value of
`new Date(day * DAY_MS).toISOString().split('T')[0]` under a UTC clock. -/
def isoOfDay (day : Nat) : String :=
  let yd := yearFromDaysAux (day + 1) 1970 day
  let md := monthFromDaysAux 12 yd.1 1 yd.2
  String.mk (natDecimal yd.1 ++ Char.ofNat 45 :: pad2 md.1 ++ Char.ofNat 45 :: pad2 (md.2 + 1))

/-- Day count since the epoch of a civil date, used to model what
`new Date("YYYY-MM-DD")` parses to (UTC midnight of that date). -/
def daysFromCivil (y m d : Nat) : Nat :=
  ((List.range (y - 1970)).map (fun i => daysInYear (1970 + i))).sum +
    ((List.range (m - 1)).map (fun i => daysInMonth y (1 + i))).sum + (d - 1)

/-- Millisecond timestamp of `new Date("YYYY-MM-DD")`: UTC midnight. -/
def parseFecha (y m d : Nat) : Nat := daysFromCivil y m d * DAY_MS

/-- The day-by-day loop of the `/disponibilidad` handler
(src/server.js lines 96-101): starting from the event's resolved start
timestamp, while strictly before the end timestamp, emit the ISO calendar
date of the current timestamp and advance by one day. -/
def walkDates (fechaActual fin : Nat) : List String :=
  if fechaActual < fin then
    isoOfDay (fechaActual / DAY_MS) :: walkDates (fechaActual + DAY_MS) fin
  else []
termination_by fin - fechaActual
decreasing_by simp [DAY_MS]; omega

/-- A calendar event as consumed by the walk: the timestamps that
`new Date(evento.start.date || evento.start.dateTime)` and
`new Date(evento.end.date || evento.end.dateTime)` resolve to
(src/server.js lines 92-93). -/
structure Evento where
  inicio : Nat
  fin : Nat

def fechasEvento (ev : Evento) : List String := walkDates ev.inicio ev.fin

/-- `fechasOcupadas` accumulated over `eventos.forEach` (lines 86-102). -/
def fechasOcupadas (eventos : List Evento) : List String :=
  eventos.flatMap fechasEvento

/-- One insertion into a JavaScript `Set`: keeps the list free of duplicates
while preserving first-insertion order. -/
def setAdd (acc : List String) (x : String) : List String :=
  if x ∈ acc then acc else acc ++ [x]

/-- `[...new Set(fechasOcupadas)]` (line 105): insert every emitted date in
order, then list the set in insertion order. -/
def fechasUnicas (eventos : List Evento) : List String :=
  (fechasOcupadas eventos).foldl setAdd []

/-- Modelled from the spec (independent formulation used to check the
deduplication): the raw sequence with each element's later occurrences
removed, keeping the first occurrence in its original position. -/
def keepFirst : List String → List String
  | [] => []
  | x :: l => x :: (keepFirst l).filter (fun y => y != x)

/-- Follows the spec's words for claim C3: truncate the start date-time to
its calendar date component (UTC midnight) before walking the interval. -/
def walkDatesTruncated (inicio fin : Nat) : List String :=
  walkDates (inicio / DAY_MS * DAY_MS) fin

/-! ### Reservation-code generation (src/server.js line 189) -/

/-- Base-36 digit character: `0`-`9` then `a`-`z`. -/
def base36Digit (n : Nat) : Char :=
  if n < 10 then Char.ofNat (48 + n) else Char.ofNat (87 + n)

/-- Fractional base-36 digits of the dyadic rational `k / 2^53` (the value
`Math.random()` produces), exact and terminating; 27 digits of fuel always
exhaust the expansion because `36^27 * k / 2^53` is an integer. -/
def frac36 : Nat → Nat → List Char
  | _, 0 => []
  | k, fuel + 1 =>
    if k = 0 then []
    else base36Digit (k * 36 / 2 ^ 53) :: frac36 (k * 36 % 2 ^ 53) fuel

/-- Characters of `(k / 2^53).toString(36)`: `"0"` for zero, otherwise
`"0."` followed by the exact base-36 fraction digits. -/
def jsChars36 (k : Nat) : List Char :=
  if k = 0 then [digitChar 0] else digitChar 0 :: Char.ofNat 46 :: frac36 k 27

/-- JavaScript `String.prototype.substr(start, len)`. -/
def substrJS (s : List Char) (start len : Nat) : List Char :=
  (s.drop start).take len

/-- `Math.random().toString(36).substr(2, 6).toUpperCase()` for the random
draw `k / 2^53`. -/
def randSuffix (k : Nat) : String :=
  String.mk ((substrJS (jsChars36 k) 2 6).map Char.toUpper)

/-- The generated reservation code (line 189), with the current year and the
random draw as explicit inputs. -/
def reservationCode (year k : Nat) : String :=
  "CB-" ++ String.mk (natDecimal year) ++ "-" ++ randSuffix k

/-- An uppercase alphanumeric character, as the spec's code pattern uses the
phrase. -/
def isUpperAlnum (c : Char) : Bool := c.isDigit || c.isUpper

/-- The spec's claimed pattern `CB-<4-digit year>-<exactly 6 uppercase
alphanumerics>`, as an executable recognizer (14 characters overall:
3 for `CB-`, 4 year digits, 1 for `-`, 6 suffix characters). -/
def matchesClaimPattern (s : String) : Bool :=
  let cs := s.data
  cs.length == 14 &&
    cs.take 3 == [Char.ofNat 67, Char.ofNat 66, Char.ofNat 45] &&
    ((cs.drop 3).take 4).all Char.isDigit &&
    (cs.drop 7).take 1 == [Char.ofNat 45] &&
    (cs.drop 8).all isUpperAlnum

/-! ### The `/agendar` handler (src/server.js lines 127-222) -/

/-- A JavaScript value as it can appear in the parsed JSON request body
(`NaN` and nested objects are not needed by any claim and are left out). -/
inductive JSValue where
  | undefined
  | null
  | str (s : String)
  | num (n : Int)
  | bool (b : Bool)
deriving DecidableEq

/-- JavaScript truthiness of a modelled value: `undefined`, `null`, `""`,
`0` and `false` are falsy, everything else truthy. -/
def truthy : JSValue → Bool
  | JSValue.undefined => false
  | JSValue.null => false
  | JSValue.str s => !(s == "")
  | JSValue.num n => !(n == 0)
  | JSValue.bool b => b

/-- Modelled from the spec for claim C4: a field that is neither absent
(`undefined`/`null`) nor the empty string, i.e. the spec's
"absent or empty" test. -/
def presentNonempty (v : JSValue) : Bool :=
  match v with
  | JSValue.undefined => false
  | JSValue.null => false
  | JSValue.str s => !(s == "")
  | _ => true

/-- The amended falsiness predicate: exactly the modelled values JavaScript
treats as falsy in `!field`. -/
def falsyJS (v : JSValue) : Prop :=
  v = JSValue.undefined ∨ v = JSValue.null ∨ v = JSValue.str "" ∨
    v = JSValue.num 0 ∨ v = JSValue.bool false

/-- The destructured request body of `POST /agendar` (line 133). -/
structure Body where
  checkInDate : JSValue
  checkOutDate : JSValue
  name : JSValue
  email : JSValue
  phone : JSValue
  guests : JSValue
  message : JSValue

/-- Decimal rendering of an integer (JavaScript template-literal coercion of
a number). -/
def intDecimal (n : Int) : List Char :=
  if n < 0 then Char.ofNat 45 :: natDecimal n.natAbs else natDecimal n.toNat

/-- String a modelled value interpolates to inside a template literal. -/
def jsDisplay : JSValue → String
  | JSValue.undefined => "undefined"
  | JSValue.null => "null"
  | JSValue.str s => s
  | JSValue.num n => String.mk (intDecimal n)
  | JSValue.bool b => if b then "true" else "false"

/-- The calendar-event payload built for `calendar.events.insert`
(lines 154-178). -/
structure EventPayload where
  summary : String
  description : String
  startDate : JSValue
  startTimeZone : String
  endDate : JSValue
  endTimeZone : String
  colorId : String

def buildEvent (b : Body) : EventPayload :=
  { summary := "🏡 Reserva Cabaña: " ++ jsDisplay b.name
    description :=
      "\nReserva de Cabaña - Sistema Automático\n--------------------------------------\n👤 Nombre: "
        ++ jsDisplay b.name ++ "\n📧 Email: " ++ jsDisplay b.email
        ++ "\n📞 Teléfono: " ++ jsDisplay b.phone
        ++ "\n👥 Huéspedes: " ++ jsDisplay b.guests ++ " personas\n📅 Check-in: "
        ++ jsDisplay b.checkInDate ++ "\n📅 Check-out: " ++ jsDisplay b.checkOutDate
        ++ "\n💬 Mensaje: "
        ++ (if truthy b.message then jsDisplay b.message else "No especificado")
        ++ "\n\nEstado: Confirmada ✅\n      "
    startDate := b.checkInDate
    startTimeZone := "America/Santiago"
    endDate := b.checkOutDate
    endTimeZone := "America/Santiago"
    colorId := "2" }

/-- A JSON value of a shaped HTTP response (`undef` marks an object property
whose value is the JavaScript `undefined`). -/
inductive Json where
  | null
  | undef
  | bool (b : Bool)
  | num (n : Int)
  | str (s : String)
  | obj (fields : List (String × Json))

/-- Field access on a shaped JSON object. -/
def jLookup (j : Json) (key : String) : Option Json :=
  match j with
  | Json.obj fields => fields.lookup key
  | _ => none

/-- What the first half of the `/agendar` handler does before any external
call: either answer 400 immediately (so the insert is never attempted) or
hand the built event payload to the insert. -/
inductive HandlerStep where
  | reject (status : Nat) (body : Json)
  | proceed (event : EventPayload)

def missingFieldsJson : Json :=
  Json.obj [("success", Json.bool false), ("message", Json.str "Faltan campos requeridos")]

/-- Validation and payload construction of `POST /agendar` (lines 138-178):
`if (!checkInDate || !checkOutDate || !name || !email || !phone || !guests)`
returns 400 before the insert; otherwise the event payload is built and the
insert is attempted. -/
def agendarStep1 (b : Body) : HandlerStep :=
  if !truthy b.checkInDate || !truthy b.checkOutDate || !truthy b.name ||
      !truthy b.email || !truthy b.phone || !truthy b.guests then
    HandlerStep.reject 400 missingFieldsJson
  else
    HandlerStep.proceed (buildEvent b)

/-- The thrown error of a failed insert: its `code` property (absent for
non-HTTP failures) and its `message`. -/
structure JsError where
  code : Option Int
  message : String

/-- The data of a successful insert used by the handler. -/
structure InsertOk where
  id : String
  htmlLink : String

def CALENDAR_ID : String :=
  "33f2b860648ddfba6f555ad436e9546153c69c1391de0143aad37415e76bc6a8@group.calendar.google.com"

/-- The hint-message selection of the catch block (lines 205-210). -/
def errorMessageFor (code : Option Int) : String :=
  if code = some 403 then
    "Error de permisos. Verifica que el Service Account tenga acceso al calendario."
  else if code = some 404 then
    "Calendario no encontrado. Verifica el Calendar ID."
  else "Error al crear la reserva en el calendario"

def jsonOfCode : Option Int → Json
  | some n => Json.num n
  | none => Json.undef

/-- Response shaping for the insert outcome (lines 188-221): 200 with the
reservation code on success, 500 with the diagnostic body in the catch. -/
def agendarFinish (result : Except JsError InsertOk) (year k : Nat) : Nat × Json :=
  match result with
  | Except.ok d =>
    (200, Json.obj [("success", Json.bool true), ("eventId", Json.str d.id),
      ("reservationCode", Json.str (reservationCode year k)),
      ("message", Json.str "Reserva creada exitosamente en Google Calendar"),
      ("eventLink", Json.str d.htmlLink)])
  | Except.error e =>
    (500, Json.obj [("success", Json.bool false), ("error", Json.str e.message),
      ("message", Json.str (errorMessageFor e.code)),
      ("details", Json.obj [("code", jsonOfCode e.code),
        ("calendarId", Json.str CALENDAR_ID)])])

/-! ### Per-operation OAuth scopes (src/server.js lines 64-67, 146-149, 227-230) -/

inductive CalOp where
  | listEvents
  | getMetadata
  | insertEvent

def scopeFullAccess : String := "https://www.googleapis.com/auth/calendar"

def scopeReadOnly : String := "https://www.googleapis.com/auth/calendar.readonly"

def scopeEventsRW : String := "https://www.googleapis.com/auth/calendar.events"

/-- The scope list each handler passes to `GoogleAuth`: line 66 for the
event listing of `/disponibilidad`, line 148 for the insert of `/agendar`,
line 229 for the metadata read of `/test-calendar`. -/
def scopesFor : CalOp → List String
  | CalOp.listEvents => [scopeFullAccess]
  | CalOp.getMetadata => [scopeReadOnly]
  | CalOp.insertEvent => [scopeReadOnly, scopeEventsRW]

/-- Modelled from the spec: which of the three scopes grants write access to
the external calendar service (the spec's read-only versus read-plus-write
distinction; `…/auth/calendar` is the full read-write scope,
`…/auth/calendar.events` grants event writes, `…/auth/calendar.readonly` is
read-only). -/
def scopeGrantsWrite (s : String) : Bool :=
  s == scopeFullAccess || s == scopeEventsRW

/-- Whether the operation only reads (listing and metadata) — the operations
the claim says must use a read-only scope. -/
def readOnlyOp : CalOp → Bool
  | CalOp.listEvents => true
  | CalOp.getMetadata => true
  | CalOp.insertEvent => false

/-- Concrete request body for the C4 counterexample: every field present and
non-empty in the spec's sense, with `guests` the number 0. -/
def bodyGuestsZero : Body :=
  { checkInDate := JSValue.str "2024-06-01"
    checkOutDate := JSValue.str "2024-06-04"
    name := JSValue.str "Ana"
    email := JSValue.str "ana@example.com"
    phone := JSValue.str "123456789"
    guests := JSValue.num 0
    message := JSValue.undefined }

/-! ### Helper lemmas -/

theorem walkDates_eq (s e : Nat) :
    walkDates s e =
      (List.range ((e - s + (DAY_MS - 1)) / DAY_MS)).map
        (fun k => isoOfDay (s / DAY_MS + k)) := by
  have H : ∀ d s e : Nat, e - s ≤ d →
      walkDates s e =
        (List.range ((e - s + (DAY_MS - 1)) / DAY_MS)).map
          (fun k => isoOfDay (s / DAY_MS + k)) := by
    intro d
    induction d with
    | zero =>
      intro s e h
      rw [walkDates]
      have hlt : ¬ s < e := by omega
      rw [if_neg hlt]
      have hz : (e - s + (DAY_MS - 1)) / DAY_MS = 0 := by
        simp only [DAY_MS]; omega
      rw [hz]
      simp
    | succ d ih =>
      intro s e h
      rw [walkDates]
      by_cases hlt : s < e
      · rw [if_pos hlt, ih (s + DAY_MS) e (by simp only [DAY_MS] at *; omega)]
        have hsucc : (e - s + (DAY_MS - 1)) / DAY_MS
            = (e - (s + DAY_MS) + (DAY_MS - 1)) / DAY_MS + 1 := by
          simp only [DAY_MS]; omega
        rw [hsucc, List.range_succ_eq_map, List.map_cons, List.map_map]
        refine congrArg₂ _ (by simp) ?_
        refine List.map_congr_left ?_
        intro k _
        simp only [Function.comp]
        refine congrArg _ ?_
        simp only [DAY_MS]
        omega
      · rw [if_neg hlt]
        have hz : (e - s + (DAY_MS - 1)) / DAY_MS = 0 := by
          simp only [DAY_MS]; omega
        rw [hz]
        simp
  exact H (e - s) s e (Nat.le_refl _)

theorem fechasOcupadas_cons (ev : Evento) (l : List Evento) :
    fechasOcupadas (ev :: l) = fechasEvento ev ++ fechasOcupadas l := by
  simp [fechasOcupadas]

theorem keepFirst_filter (p : String → Bool) :
    ∀ l : List String, keepFirst (l.filter p) = (keepFirst l).filter p := by
  intro l
  induction l with
  | nil => simp [keepFirst]
  | cons x l ih =>
    by_cases hp : p x
    · rw [List.filter_cons_of_pos hp]
      simp only [keepFirst, ih, List.filter_cons_of_pos hp, List.filter_filter]
      refine congrArg _ ?_
      refine List.filter_congr ?_
      intro y _
      rw [Bool.and_comm]
    · rw [List.filter_cons_of_neg hp]
      simp only [keepFirst, ih, List.filter_cons_of_neg hp, List.filter_filter]
      refine List.filter_congr ?_
      intro y _
      by_cases hyx : y = x
      · subst hyx
        simp [hp]
      · simp [bne_iff_ne, hyx]

theorem foldl_setAdd (xs : List String) :
    ∀ acc : List String,
      xs.foldl setAdd acc = acc ++ keepFirst (xs.filter (fun y => !(decide (y ∈ acc)))) := by
  induction xs with
  | nil => intro acc; simp [keepFirst]
  | cons x xs ih =>
    intro acc
    rw [List.foldl_cons]
    by_cases hx : x ∈ acc
    · have hsa : setAdd acc x = acc := by simp [setAdd, hx]
      rw [hsa, ih acc, List.filter_cons_of_neg (by simp [hx])]
    · have hsa : setAdd acc x = acc ++ [x] := by simp [setAdd, hx]
      rw [hsa, ih (acc ++ [x]), List.filter_cons_of_pos (by simp [hx])]
      have hpred : (xs.filter (fun y => !(decide (y ∈ acc ++ [x]))))
          = (xs.filter (fun y => !(decide (y ∈ acc)))).filter (fun y => y != x) := by
        rw [List.filter_filter]
        refine List.filter_congr ?_
        intro y _
        by_cases h1 : y ∈ acc <;> by_cases h2 : y = x <;>
          simp [h1, h2, List.mem_append]
      rw [hpred, keepFirst_filter]
      simp [keepFirst]

theorem keepFirst_nodup : ∀ l : List String, (keepFirst l).Nodup := by
  intro l
  induction l with
  | nil => simp [keepFirst]
  | cons x l ih =>
    simp only [keepFirst]
    refine List.Nodup.cons ?_ (List.Nodup.filter _ ih)
    intro hmem
    have := List.of_mem_filter hmem
    simp at this

theorem fechasUnicas_eq_keepFirst (eventos : List Evento) :
    fechasUnicas eventos = keepFirst (fechasOcupadas eventos) := by
  unfold fechasUnicas
  rw [foldl_setAdd]
  have hfilter : (fechasOcupadas eventos).filter
      (fun y => !(decide (y ∈ ([] : List String)))) = fechasOcupadas eventos := by
    simp
  rw [hfilter]
  simp

theorem natDecimalAux_congr :
    ∀ f g n : Nat, n < f → n < g → natDecimalAux f n = natDecimalAux g n := by
  intro f
  induction f with
  | zero => intro g n h; omega
  | succ f ih =>
    intro g n hf hg
    cases g with
    | zero => omega
    | succ g =>
      simp only [natDecimalAux]
      by_cases h10 : n < 10
      · simp [h10]
      · rw [if_neg h10, if_neg h10]
        have hd : n / 10 < n := Nat.div_lt_self (by omega) (by omega)
        rw [ih g (n / 10) (by omega) (by omega)]

theorem natDecimal_step (n : Nat) (h : 10 ≤ n) :
    natDecimal n = natDecimal (n / 10) ++ [digitChar (n % 10)] := by
  unfold natDecimal
  simp only [natDecimalAux, if_neg (by omega : ¬ n < 10)]
  have hd : n / 10 < n := Nat.div_lt_self (by omega) (by omega)
  rw [natDecimalAux_congr n (n / 10 + 1) (n / 10) (by omega) (by omega)]
  simp only [natDecimalAux]

theorem natDecimal_small (n : Nat) (h : n < 10) : natDecimal n = [digitChar n] := by
  unfold natDecimal
  simp [natDecimalAux, h]

theorem natDecimal_len4 (n : Nat) (h1 : 1000 ≤ n) (h2 : n ≤ 9999) :
    (natDecimal n).length = 4 := by
  rw [natDecimal_step n (by omega)]
  rw [natDecimal_step (n / 10) (by omega)]
  rw [natDecimal_step (n / 10 / 10) (by omega)]
  rw [natDecimal_small (n / 10 / 10 / 10) (by omega)]
  simp

theorem base36_upper_ok :
    ∀ n : Nat, n < 36 → isUpperAlnum (base36Digit n).toUpper = true := by decide

theorem frac36_mem : ∀ fuel k : Nat, k < 2 ^ 53 →
    ∀ c ∈ frac36 k fuel, ∃ n : Nat, n < 36 ∧ c = base36Digit n := by
  intro fuel
  induction fuel with
  | zero => intro k hk c hc; simp [frac36] at hc
  | succ fuel ih =>
    intro k hk c hc
    by_cases h0 : k = 0
    · simp [frac36, h0] at hc
    · simp only [frac36, if_neg h0, List.mem_cons] at hc
      rcases hc with hc | hc
      · refine ⟨k * 36 / 2 ^ 53, ?_, hc⟩
        have h36 : k * 36 < 36 * 2 ^ 53 := by
          have h53 : (2 : Nat) ^ 53 = 9007199254740992 := by norm_num
          omega
        exact Nat.div_lt_of_lt_mul (by omega)
      · exact ih (k * 36 % 2 ^ 53) (Nat.mod_lt _ (by positivity)) c hc

theorem randSuffix_len (k : Nat) : (randSuffix k).length ≤ 6 := by
  have h : (randSuffix k).length
      = ((substrJS (jsChars36 k) 2 6).map Char.toUpper).length := rfl
  rw [h]
  simp [substrJS]

theorem randSuffix_chars (k : Nat) (hk : k < 2 ^ 53) :
    ∀ c ∈ (randSuffix k).data, isUpperAlnum c = true := by
  intro c hc
  have hc' : c ∈ (substrJS (jsChars36 k) 2 6).map Char.toUpper := hc
  rw [List.mem_map] at hc'
  obtain ⟨c0, hc0, rfl⟩ := hc'
  by_cases h0 : k = 0
  · simp [substrJS, jsChars36, h0] at hc0
  · have hc1 : c0 ∈ (frac36 k 27).take 6 := by
      simpa [substrJS, jsChars36, h0] using hc0
    have hc2 : c0 ∈ frac36 k 27 := List.mem_of_mem_take hc1
    obtain ⟨n, hn, rfl⟩ := frac36_mem 27 k hk c0 hc2
    exact base36_upper_ok n hn

theorem truthy_false_iff (v : JSValue) : truthy v = false ↔ falsyJS v := by
  cases v <;> simp [truthy, falsyJS]

theorem randSuffix_length_min (k : Nat) :
    (randSuffix k).length = min 6 (frac36 k 27).length := by
  by_cases h0 : k = 0
  · subst h0
    decide
  · have h : (randSuffix k).length
        = ((substrJS (jsChars36 k) 2 6).map Char.toUpper).length := rfl
    rw [h]
    simp [substrJS, jsChars36, h0]

theorem matchesClaimPattern_accepts_six :
    matchesClaimPattern "CB-2024-ABC123" = true := by decide

theorem matchesClaimPattern_rejects_seven :
    matchesClaimPattern "CB-2024-ABC1234" = false := by decide

/-! ### Claim theorems -/

/-- C1: for every all-day calendar event (inclusive start day, exclusive end
day) the availability walk emits exactly the ISO dates of the days from the
start day up to but not including the end day; in particular the event
[2024-06-01, 2024-06-04) contributes exactly 2024-06-01, 2024-06-02 and
2024-06-03. -/
theorem claim_C1 :
    (∀ s e : Nat,
      walkDates (s * DAY_MS) (e * DAY_MS) = (List.range' s (e - s)).map isoOfDay) ∧
    walkDates (parseFecha 2024 6 1) (parseFecha 2024 6 4)
      = ["2024-06-01", "2024-06-02", "2024-06-03"] := by
  constructor
  · intro s e
    rw [walkDates_eq]
    have h1 : (e * DAY_MS - s * DAY_MS + (DAY_MS - 1)) / DAY_MS = e - s := by
      simp only [DAY_MS]; omega
    have h2 : s * DAY_MS / DAY_MS = s := by
      simp only [DAY_MS]; omega
    rw [h1, h2, List.range'_eq_map_range, List.map_map]
    rfl
  · rw [walkDates_eq]
    decide

/-- C2: the occupied-date list returned by the availability computation has
no duplicate dates even for overlapping events; in particular the events
[2024-06-01, 2024-06-03) and [2024-06-02, 2024-06-05) together contribute
exactly the four dates 2024-06-01 through 2024-06-04. -/
theorem claim_C2 :
    (∀ eventos : List Evento, (fechasUnicas eventos).Nodup) ∧
    fechasUnicas [⟨parseFecha 2024 6 1, parseFecha 2024 6 3⟩,
        ⟨parseFecha 2024 6 2, parseFecha 2024 6 5⟩]
      = ["2024-06-01", "2024-06-02", "2024-06-03", "2024-06-04"] := by
  constructor
  · intro eventos
    rw [fechasUnicas_eq_keepFirst]
    exact keepFirst_nodup _
  · have e1 : fechasEvento ⟨parseFecha 2024 6 1, parseFecha 2024 6 3⟩
        = ["2024-06-01", "2024-06-02"] := by
      unfold fechasEvento
      rw [walkDates_eq]
      decide
    have e2 : fechasEvento ⟨parseFecha 2024 6 2, parseFecha 2024 6 5⟩
        = ["2024-06-02", "2024-06-03", "2024-06-04"] := by
      unfold fechasEvento
      rw [walkDates_eq]
      decide
    unfold fechasUnicas
    rw [fechasOcupadas_cons, fechasOcupadas_cons, e1, e2]
    decide

/-- C3 as stated is false (see `claim_C3_cex`); amended: the walk does not
truncate a date-time start to midnight before walking — it steps in whole
days from the exact start timestamp and truncates each visited timestamp to
its calendar date when emitting, so the first emitted date (when there is
one) is still the start's calendar day D and the end stays exclusive at the
timestamp level. -/
theorem claim_C3_amended (inicio fin : Nat) :
    walkDates inicio fin =
      (List.range ((fin - inicio + (DAY_MS - 1)) / DAY_MS)).map
        (fun k => isoOfDay (inicio / DAY_MS + k)) ∧
    (walkDates inicio fin).head? =
      (if inicio < fin then some (isoOfDay (inicio / DAY_MS)) else none) := by
  refine ⟨walkDates_eq inicio fin, ?_⟩
  rw [walkDates]
  by_cases h : inicio < fin
  · rw [if_pos h, if_pos h]
    rfl
  · rw [if_neg h, if_neg h]
    rfl

/-- C3 counterexample: an event starting 2024-06-01 20:00 UTC and ending
2024-06-02 10:00 UTC. Truncating the start to its calendar date before
walking would emit both 2024-06-01 and 2024-06-02; the code emits only
2024-06-01, so the computation does not truncate date-times before the
interval walk. -/
theorem claim_C3_cex :
    walkDates (parseFecha 2024 6 1 + 72000000) (parseFecha 2024 6 2 + 36000000) ≠
      walkDatesTruncated (parseFecha 2024 6 1 + 72000000) (parseFecha 2024 6 2 + 36000000) := by
  unfold walkDatesTruncated
  rw [walkDates_eq, walkDates_eq]
  decide

/-- C4 as stated is false (see `claim_C4_cex`); amended: the handler answers
400 (before any insert attempt) exactly when at least one of checkInDate,
checkOutDate, name, email, phone, guests is falsy — absent, null, the empty
string, the number 0, or false — so a present, non-empty `guests` equal to
the number 0 is also rejected; otherwise it proceeds straight to the insert
with no further semantic checks. -/
theorem claim_C4_amended (b : Body) :
    ((∃ j, agendarStep1 b = HandlerStep.reject 400 j) ↔
      (falsyJS b.checkInDate ∨ falsyJS b.checkOutDate ∨ falsyJS b.name ∨
        falsyJS b.email ∨ falsyJS b.phone ∨ falsyJS b.guests)) ∧
    (agendarStep1 b = HandlerStep.reject 400 missingFieldsJson ∨
      agendarStep1 b = HandlerStep.proceed (buildEvent b)) := by
  constructor
  · unfold agendarStep1
    by_cases hc : (!truthy b.checkInDate || !truthy b.checkOutDate || !truthy b.name ||
        !truthy b.email || !truthy b.phone || !truthy b.guests) = true
    · rw [if_pos hc]
      simp only [Bool.or_eq_true, Bool.not_eq_true'] at hc
      simp only [truthy_false_iff] at hc
      constructor
      · intro _; tauto
      · intro _; exact ⟨missingFieldsJson, rfl⟩
    · rw [if_neg hc]
      simp only [Bool.or_eq_true, Bool.not_eq_true'] at hc
      push_neg at hc
      constructor
      · rintro ⟨j, hj⟩; cases hj
      · intro hfals
        exfalso
        have hfl : truthy b.checkInDate = false ∨ truthy b.checkOutDate = false ∨
            truthy b.name = false ∨ truthy b.email = false ∨ truthy b.phone = false ∨
            truthy b.guests = false := by
          rcases hfals with h | h | h | h | h | h <;>
            simp [truthy_false_iff, h]
        tauto
  · unfold agendarStep1
    by_cases hc : (!truthy b.checkInDate || !truthy b.checkOutDate || !truthy b.name ||
        !truthy b.email || !truthy b.phone || !truthy b.guests) = true
    · rw [if_pos hc]; left; rfl
    · rw [if_neg hc]; right; rfl

/-- C4 counterexample: a request whose six required fields are all present
and non-empty — `guests` is the number 0 — is still rejected with the 400
response, so validation does not fail exactly on absent-or-empty fields, and
`guests` is in fact range-checked against 0 by the falsiness test. -/
theorem claim_C4_cex :
    (presentNonempty bodyGuestsZero.checkInDate &&
      presentNonempty bodyGuestsZero.checkOutDate &&
      presentNonempty bodyGuestsZero.name &&
      presentNonempty bodyGuestsZero.email &&
      presentNonempty bodyGuestsZero.phone &&
      presentNonempty bodyGuestsZero.guests) = true ∧
    agendarStep1 bodyGuestsZero = HandlerStep.reject 400 missingFieldsJson :=
  ⟨rfl, rfl⟩

/-- C5 as stated is false (see `claim_C5_cex`); amended: for every
4-digit current year and every possible random draw, the reservation code is
`CB-`, the 4-digit year, `-`, then at most 6 uppercase alphanumeric
characters; the suffix has exactly 6 characters if and only if the random
value's base-36 expansion has at least 6 fractional digits, and is shorter
(even empty) otherwise. -/
theorem claim_C5_amended (year k : Nat) (hy1 : 1000 ≤ year) (hy2 : year ≤ 9999)
    (hk : k < 2 ^ 53) :
    reservationCode year k = "CB-" ++ String.mk (natDecimal year) ++ "-" ++ randSuffix k ∧
    (String.mk (natDecimal year)).length = 4 ∧
    (randSuffix k).length ≤ 6 ∧
    ((randSuffix k).length = 6 ↔ 6 ≤ (frac36 k 27).length) ∧
    ∀ c ∈ (randSuffix k).data, isUpperAlnum c = true := by
  refine ⟨rfl, ?_, randSuffix_len k, ?_, randSuffix_chars k hk⟩
  · have h : (String.mk (natDecimal year)).length = (natDecimal year).length := rfl
    rw [h, natDecimal_len4 year hy1 hy2]
  · have hm := randSuffix_length_min k
    omega

theorem claim_C5_amended_witness :
    (1000 ≤ 2026 ∧ 2026 ≤ 9999 ∧ 123456789 < 2 ^ 53) ∧
    (reservationCode 2026 123456789
        = "CB-" ++ String.mk (natDecimal 2026) ++ "-" ++ randSuffix 123456789 ∧
      (String.mk (natDecimal 2026)).length = 4 ∧
      (randSuffix 123456789).length ≤ 6 ∧
      ((randSuffix 123456789).length = 6 ↔ 6 ≤ (frac36 123456789 27).length) ∧
      ∀ c ∈ (randSuffix 123456789).data, isUpperAlnum c = true) :=
  ⟨⟨by decide, by decide, by decide⟩,
    claim_C5_amended 2026 123456789 (by decide) (by decide) (by decide)⟩

/-- C5 counterexample: when `Math.random()` returns 0.5 (the draw
`2^52 / 2^53`), its base-36 rendering is `"0.i"`, so `substr(2, 6)` yields
the single character `i` and the code is `CB-2024-I`, whose suffix has 1
character, not 6: the claimed pattern does not match for every outcome of
the random generator. -/
theorem claim_C5_cex :
    reservationCode 2024 (2 ^ 52) = "CB-2024-I" ∧
    matchesClaimPattern (reservationCode 2024 (2 ^ 52)) = false := by
  constructor <;> decide

/-- C6: whenever the external insert fails, the handler responds 500 with
body `{success:false, error, message, details:{code, calendarId}}` — the
message is the permission hint for failure code 403, the calendar-not-found
hint for 404 and the generic message otherwise, while the raw error text and
the calendar identifier are always echoed. -/
theorem claim_C6 (e : JsError) (year k : Nat) :
    (agendarFinish (Except.error e) year k).1 = 500 ∧
    jLookup (agendarFinish (Except.error e) year k).2 "success" = some (Json.bool false) ∧
    jLookup (agendarFinish (Except.error e) year k).2 "error" = some (Json.str e.message) ∧
    jLookup (agendarFinish (Except.error e) year k).2 "message" =
      some (Json.str (if e.code = some 403 then
          "Error de permisos. Verifica que el Service Account tenga acceso al calendario."
        else if e.code = some 404 then
          "Calendario no encontrado. Verifica el Calendar ID."
        else "Error al crear la reserva en el calendario")) ∧
    jLookup (agendarFinish (Except.error e) year k).2 "details" =
      some (Json.obj [("code", jsonOfCode e.code), ("calendarId", Json.str CALENDAR_ID)]) :=
  ⟨rfl, rfl, rfl, rfl, rfl⟩

/-- C7: an event whose start timestamp equals its end timestamp contributes
no dates. -/
theorem claim_C7 (ev : Evento) (h : ev.inicio = ev.fin) : fechasEvento ev = [] := by
  unfold fechasEvento
  rw [walkDates, if_neg (by omega)]

theorem claim_C7_witness :
    fechasEvento ⟨parseFecha 2024 6 1, parseFecha 2024 6 1⟩ = [] :=
  claim_C7 ⟨parseFecha 2024 6 1, parseFecha 2024 6 1⟩ rfl

/-- C8 as stated is false (see `claim_C8_cex`); amended: the metadata read
uses the read-only scope and the insert uses read-only plus events
read-write, but the event listing of `/disponibilidad` establishes the full
read-write calendar scope instead of the minimal read-only scope. -/
theorem claim_C8_amended :
    scopesFor CalOp.getMetadata = [scopeReadOnly] ∧
    ((scopesFor CalOp.getMetadata).all (fun s => !scopeGrantsWrite s)) = true ∧
    scopesFor CalOp.insertEvent = [scopeReadOnly, scopeEventsRW] ∧
    scopesFor CalOp.listEvents = [scopeFullAccess] ∧
    scopeGrantsWrite scopeFullAccess = true :=
  ⟨rfl, by decide, rfl, rfl, by decide⟩

/-- C8 counterexample: the event-listing operation is a read, yet its scope
list is not read-only — it requests the full read-write calendar scope, so
not every operation uses the minimum required permission scope. -/
theorem claim_C8_cex :
    readOnlyOp CalOp.listEvents = true ∧
    ((scopesFor CalOp.listEvents).all (fun s => !scopeGrantsWrite s)) = false :=
  ⟨rfl, by decide⟩

/-- C9: the deduplicated list returned by `/disponibilidad` preserves
first-discovery order — it equals the raw emitted date sequence with each
date's later occurrences removed and first occurrences kept in place. -/
theorem claim_C9 (eventos : List Evento) :
    fechasUnicas eventos = keepFirst (fechasOcupadas eventos) :=
  fechasUnicas_eq_keepFirst eventos

/-- C10: an event whose end timestamp is strictly before its start timestamp
contributes no dates — the loop guard fails immediately instead of walking
backwards. -/
theorem claim_C10 (ev : Evento) (h : ev.fin < ev.inicio) : fechasEvento ev = [] := by
  unfold fechasEvento
  rw [walkDates, if_neg (by omega)]

theorem claim_C10_witness :
    fechasEvento ⟨parseFecha 2024 6 4, parseFecha 2024 6 1⟩ = [] :=
  claim_C10 ⟨parseFecha 2024 6 4, parseFecha 2024 6 1⟩ (by decide)
